import Mathlib

/-!
# Shallow embedding of the grinta feature/aggregation core

This file embeds the metric, spatial, windowing and aggregation functions of
`src/features/metrics.py`, `src/features/spatial.py`, `src/features/utils.py`
and `src/features/aggregator.py` and settles the frozen claims about them.

Modelling conventions:
* A pandas `DataFrame` of events is a `DF`: a list of `Event` rows plus a
  record of which columns are present (`Cols`).  A cell that is `NaN`/`None`
  in pandas is `Option.none` here.
* Accessing a column that is absent raises `KeyError` in pandas; here every
  function that performs such an access returns `Except String α`, and each
  unchecked column access in the source appears as an explicit presence test
  (in source order).  Guarded accesses (dominated by a
  `"col" not in df.columns` guard in the same function) still carry their test; the guard makes
  the error branch unreachable, which is exactly what the safety claims are
  about.
* Python floats are modelled by `ℚ` (exact arithmetic; the phrase "within
  floating tolerance" of the spec becomes exact equality).  `pandas.Series.std` (sample
  standard deviation) is modelled by the sample *variance* (`sampleVariance`,
  `none` for fewer than two points, matching the `NaN` that `ddof=1` yields);
  no claim depends on the square root.
* `round(x, n)` in Python is round-half-to-even on the scaled value; it is
  modelled exactly so on `ℚ` (`pyRoundTo`).
* `value_counts()` drops `NaN` keys and, viewed as a dict, maps each distinct
  non-null `team_id` to its number of occurrences; the frequency ordering of
  the keys is irrelevant to a dict, so keys are listed in `List.dedup` order.
* `str(tid)` keys of the possession dict are modelled as the `Int` ids
  themselves (the conversion is injective and the aggregator converts back
  consistently).
-/

namespace Grinta

/-- The content of a `timestamp` cell as seen by `_timestamp_to_seconds`
(`src/features/utils.py`): either missing (`NaN`), a string not matching
`(\d+):(\d+):(\d+)\.?(\d*)`, or the matched groups `h:m:s` with an optional
fractional part already scaled to milliseconds (`int(frac.ljust(3,"0")[:3])`). -/
inductive TsCell where
  | missing
  | malformed
  | time (h m s : Nat) (frac : Option Nat)
deriving DecidableEq

/-- `_timestamp_to_seconds` (utils.py:56-68): `NaN` and non-matching strings
map to `0`; otherwise `h*3600 + m*60 + s` plus `ms/1000` when a fractional
part is present. -/
def timestampToSeconds : TsCell → ℚ
  | .missing => 0
  | .malformed => 0
  | .time h m s frac =>
      ((h * 3600 + m * 60 + s : Nat) : ℚ) +
        (match frac with
          | none => 0
          | some ms => (ms : ℚ) / 1000)

/-- One row of the normalized event table.  `none` models a `NaN` cell. -/
structure Event where
  period : Option Int := none
  timestamp : TsCell := .missing
  team_id : Option Int := none
  team_name : Option String := none
  type_name : Option String := none
  x : Option ℚ := none
  y : Option ℚ := none
  end_x : Option ℚ := none
  pass_outcome : Option String := none
  shot_outcome : Option String := none
deriving DecidableEq

/-- Which columns the DataFrame has.  `seconds_col` tracks the temporary
`_seconds` column that `filter_last_n_minutes` adds and (on most paths)
drops again. -/
structure Cols where
  period : Bool := true
  timestamp : Bool := true
  team_id : Bool := true
  team_name : Bool := true
  type_name : Bool := true
  x : Bool := true
  y : Bool := true
  end_x : Bool := true
  pass_outcome : Bool := true
  shot_outcome : Bool := true
  seconds_col : Bool := false
deriving DecidableEq

/-- An event DataFrame: the present columns plus the rows. -/
structure DF where
  cols : Cols := {}
  rows : List Event := []
deriving DecidableEq

/-- `series < c` on an optionally-null cell: comparisons with `NaN` are
`False` in pandas. -/
def optLt (o : Option ℚ) (c : ℚ) : Bool := o.elim false (fun v => decide (v < c))

/-- `series > c` on an optionally-null cell. -/
def optGt (o : Option ℚ) (c : ℚ) : Bool := o.elim false (fun v => decide (c < v))

/-- `series >= c` on an optionally-null cell. -/
def optGe (o : Option ℚ) (c : ℚ) : Bool := o.elim false (fun v => decide (c ≤ v))

/-- `series <= c` on an optionally-null cell. -/
def optLe (o : Option ℚ) (c : ℚ) : Bool := o.elim false (fun v => decide (v ≤ c))

/-- `series.isin(values)` on an optionally-null string cell (`NaN` is never
in the list). -/
def optIn (o : Option String) (l : List String) : Bool :=
  o.elim false (fun v => decide (v ∈ l))

/-- Dictionary lookup (`d.get(k)` without default): first pair with the key. -/
def dlookup {α β : Type} [DecidableEq α] : List (α × β) → α → Option β
  | [], _ => none
  | p :: rest, k => if p.1 = k then some p.2 else dlookup rest k

/-- `series.value_counts().to_dict()` on the `team_id` column of `rows`:
`NaN` is dropped, each remaining distinct id maps to its number of
occurrences. -/
def valueCounts (rows : List Event) : List (Int × Nat) :=
  ((rows.filterMap Event.team_id).dedup).map
    (fun t => (t, (rows.filter (fun e => decide (e.team_id = some t))).length))

/-- `max` of a list of rationals (`Series.max()`); `0` for the empty list,
which the callers rule out. -/
def listMaxQ : List ℚ → ℚ
  | [] => 0
  | a :: rest => rest.foldl max a

/-- `min` of a list of rationals (`Series.min()`); `0` for the empty list. -/
def listMinQ : List ℚ → ℚ
  | [] => 0
  | a :: rest => rest.foldl min a

/-- `max` of a list of integers; `0` for the empty list. -/
def listMaxI : List Int → Int
  | [] => 0
  | a :: rest => rest.foldl max a

/-- Round-half-to-even to an integer, the rounding used by `round` in Python. -/
def roundHalfEven (q : ℚ) : Int :=
  let f := ⌊q⌋
  let r := q - (f : ℚ)
  if r < 1 / 2 then f
  else if 1 / 2 < r then f + 1
  else if f % 2 = 0 then f else f + 1

/-- Python `round(q, nd)` modelled on `ℚ`. -/
def pyRoundTo (nd : Nat) (q : ℚ) : ℚ :=
  ((roundHalfEven (q * (10 : ℚ) ^ nd) : Int) : ℚ) / (10 : ℚ) ^ nd

/-- Sample variance (`ddof=1`), standing in for `Series.std()`: `none` when
fewer than two points (pandas yields `NaN` there). -/
def sampleVariance (l : List ℚ) : Option ℚ :=
  if l.length ≤ 1 then none
  else
    let m := l.sum / (l.length : ℚ)
    some (((l.map (fun v => (v - m) ^ 2)).sum) / ((l.length : ℚ) - 1))

/-- `possession_share_from_passes` (metrics.py:13-33).  The share of each team is
`team passes / total passes`; the result dict keys are modelled as the ids
(the source uses `str(tid)`). -/
def possession_share_from_passes (df : DF) : Except String (List (Int × ℚ)) :=
  if df.rows.isEmpty || !df.cols.team_id || !df.cols.type_name then .ok []
  else if !df.cols.type_name then .error "KeyError: type_name"
  else
    let passes := df.rows.filter (fun e => decide (e.type_name = some "Pass"))
    if passes.isEmpty then .ok []
    else if !df.cols.team_id then .error "KeyError: team_id"
    else
      let counts := valueCounts passes
      let total : Nat := (counts.map (fun p => p.2)).sum
      if total = 0 then .ok []
      else .ok (counts.map (fun p => (p.1, (p.2 : ℚ) / (total : ℚ))))

/-- `ball_receipts_by_team` (metrics.py:36-41). -/
def ball_receipts_by_team (df : DF) : Except String (List (Int × Nat)) :=
  if df.rows.isEmpty || !df.cols.team_id || !df.cols.type_name then .ok []
  else if !df.cols.type_name then .error "KeyError: type_name"
  else if !df.cols.team_id then .error "KeyError: team_id"
  else .ok (valueCounts (df.rows.filter (fun e => decide (e.type_name = some "Ball Receipt"))))

/-- `pass_counts_by_team` (metrics.py:44-49). -/
def pass_counts_by_team (df : DF) : Except String (List (Int × Nat)) :=
  if df.rows.isEmpty || !df.cols.team_id || !df.cols.type_name then .ok []
  else if !df.cols.type_name then .error "KeyError: type_name"
  else if !df.cols.team_id then .error "KeyError: team_id"
  else .ok (valueCounts (df.rows.filter (fun e => decide (e.type_name = some "Pass"))))

/-- `successful_pass_counts_by_team` (metrics.py:52-63): passes whose outcome
is null or `"Complete"`; when the `pass_outcome` column is absent, all
passes. -/
def successful_pass_counts_by_team (df : DF) : Except String (List (Int × Nat)) :=
  if df.rows.isEmpty || !df.cols.team_id || !df.cols.type_name then .ok []
  else if !df.cols.type_name then .error "KeyError: type_name"
  else
    let passes := df.rows.filter (fun e => decide (e.type_name = some "Pass"))
    if passes.isEmpty then .ok []
    else
      let successful :=
        if df.cols.pass_outcome then
          passes.filter (fun e => e.pass_outcome.isNone || decide (e.pass_outcome = some "Complete"))
        else passes
      if !df.cols.team_id then .error "KeyError: team_id"
      else .ok (valueCounts successful)

/-- `shot_counts_by_team` (metrics.py:70-75). -/
def shot_counts_by_team (df : DF) : Except String (List (Int × Nat)) :=
  if df.rows.isEmpty || !df.cols.team_id || !df.cols.type_name then .ok []
  else if !df.cols.type_name then .error "KeyError: type_name"
  else if !df.cols.team_id then .error "KeyError: team_id"
  else .ok (valueCounts (df.rows.filter (fun e => decide (e.type_name = some "Shot"))))

/-- `shots_on_target_by_team` (metrics.py:78-88): shots with outcome
`Saved` or `Goal`; falls back to the raw shot counts when the
`shot_outcome` column is absent. -/
def shots_on_target_by_team (df : DF) : Except String (List (Int × Nat)) :=
  if df.rows.isEmpty || !df.cols.team_id || !df.cols.type_name then .ok []
  else if !df.cols.type_name then .error "KeyError: type_name"
  else
    let shots := df.rows.filter (fun e => decide (e.type_name = some "Shot"))
    if shots.isEmpty then .ok []
    else if !df.cols.shot_outcome then shot_counts_by_team df
    else
      let on_target := shots.filter (fun e => optIn e.shot_outcome ["Saved", "Goal"])
      if !df.cols.team_id then .error "KeyError: team_id"
      else .ok (valueCounts on_target)

/-- `goals_by_team` (metrics.py:91-99): shots with outcome exactly `Goal`.
When the shot list is empty or the `shot_outcome` column is absent, every
distinct `team_id` value among the shots (including a null one — pandas
`unique()` keeps `NaN`) maps to an explicit `0`.  Keys are therefore
`Option Int`; the `value_counts` branch only produces non-null keys. -/
def goals_by_team (df : DF) : Except String (List (Option Int × Nat)) :=
  if df.rows.isEmpty || !df.cols.team_id || !df.cols.type_name then .ok []
  else if !df.cols.type_name then .error "KeyError: type_name"
  else
    let shots := df.rows.filter (fun e => decide (e.type_name = some "Shot"))
    if shots.isEmpty || !df.cols.shot_outcome then
      if !df.cols.team_id then .error "KeyError: team_id"
      else .ok (((shots.map Event.team_id).dedup).map (fun t => (t, 0)))
    else
      let goals := shots.filter (fun e => decide (e.shot_outcome = some "Goal"))
      if !df.cols.team_id then .error "KeyError: team_id"
      else .ok ((((goals.filterMap Event.team_id).dedup).map
        (fun t => ((some t : Option Int),
          (goals.filter (fun e => decide (e.team_id = some t))).length))))

/-- `average_position_by_team` (metrics.py:106-121).  Note: the source reads
`df["x"]` and `df["y"]` without a presence guard, so a non-empty table with
a `team_id` column but no `x` (or `y`) column raises `KeyError`. -/
def average_position_by_team (df : DF) : Except String (List (Int × ℚ × ℚ)) :=
  if df.rows.isEmpty || !df.cols.team_id then .ok []
  else if !df.cols.x then .error "KeyError: x"
  else if !df.cols.y then .error "KeyError: y"
  else
    let valid := df.rows.filter (fun e => e.x.isSome && e.y.isSome)
    if valid.isEmpty then .ok []
    else .ok (((valid.filterMap Event.team_id).dedup).map (fun t =>
      let team_events := valid.filter (fun e => decide (e.team_id = some t))
      (t, (team_events.filterMap Event.x).sum / ((team_events.length : ℚ)),
          (team_events.filterMap Event.y).sum / ((team_events.length : ℚ)))))

/-- `final_third_entries_by_team` (metrics.py:124-129): events with
non-null `x ≥ 80`. -/
def final_third_entries_by_team (df : DF) : Except String (List (Int × Nat)) :=
  if df.rows.isEmpty || !df.cols.team_id || !df.cols.x then .ok []
  else if !df.cols.x then .error "KeyError: x"
  else if !df.cols.team_id then .error "KeyError: team_id"
  else .ok (valueCounts (df.rows.filter (fun e => e.x.isSome && optGe e.x 80)))

/-- Result record of `attack_distribution_by_zone` (spatial.py:12-106). -/
structure ZoneDist where
  left_flank_attacks_pct : Option ℚ
  center_attacks_pct : Option ℚ
  right_flank_attacks_pct : Option ℚ
  attacking_half_actions : Nat
  final_third_dominance : Option ℚ
deriving DecidableEq

/-- `attack_distribution_by_zone` (spatial.py:12-106).  The source reads the
`team_id`, `type_name`, `x` and `y` columns unguarded (in that order), so any
of them being absent raises `KeyError` — even on an empty table. -/
def attack_distribution_by_zone (df : DF) (team_id : Int) : Except String ZoneDist :=
  if !df.cols.team_id then .error "KeyError: team_id"
  else
    let team_events := df.rows.filter (fun e => decide (e.team_id = some team_id))
    if !df.cols.type_name then .error "KeyError: type_name"
    else if !df.cols.x then .error "KeyError: x"
    else if !df.cols.y then .error "KeyError: y"
    else
      let attacking_events := team_events.filter (fun e =>
        optIn e.type_name ["Pass", "Carry", "Dribble", "Shot"] && e.x.isSome && e.y.isSome)
      if attacking_events.length = 0 then
        .ok ⟨none, none, none, 0, none⟩
      else
        let attacking_half := attacking_events.filter (fun e => optGt e.x 60)
        let attacking_half_count := attacking_half.length
        if attacking_half_count = 0 then
          .ok ⟨none, none, none, 0, none⟩
        else
          let left_flank := (attacking_half.filter (fun e => optLt e.y (2667 / 100))).length
          let center := (attacking_half.filter (fun e =>
            optGe e.y (2667 / 100) && optLe e.y (5333 / 100))).length
          let right_flank := (attacking_half.filter (fun e => optGt e.y (5333 / 100))).length
          let total := left_flank + center + right_flank
          let left_pct := if total > 0 then some ((left_flank : ℚ) / (total : ℚ)) else none
          let center_pct := if total > 0 then some ((center : ℚ) / (total : ℚ)) else none
          let right_pct := if total > 0 then some ((right_flank : ℚ) / (total : ℚ)) else none
          let final_third := attacking_half.filter (fun e => optGt e.x 80)
          let dominance :=
            if final_third.length > 0 then
              some (min ((listMaxQ (final_third.filterMap Event.y) -
                listMinQ (final_third.filterMap Event.y)) / 80) 1)
            else none
          .ok ⟨left_pct, center_pct, right_pct, attacking_half_count, dominance⟩

/-- Result record of `defensive_zone_activity` (spatial.py:109-163). -/
structure DefenseZones where
  high_press_actions : Nat
  low_block_actions : Nat
  possession_losses_attacking_third : Nat
deriving DecidableEq

/-- `defensive_zone_activity` (spatial.py:109-163).  Reads `team_id`,
`type_name` and `x` unguarded; `pass_outcome` is guarded by an explicit
column check. -/
def defensive_zone_activity (df : DF) (team_id : Int) : Except String DefenseZones :=
  if !df.cols.team_id then .error "KeyError: team_id"
  else
    let team_events := df.rows.filter (fun e => decide (e.team_id = some team_id))
    if !df.cols.type_name then .error "KeyError: type_name"
    else if !df.cols.x then .error "KeyError: x"
    else
      let defensive_events := team_events.filter (fun e =>
        optIn e.type_name ["Pressure", "Tackle", "Interception", "Block", "Clearance", "Duel"]
          && e.x.isSome)
      let high_press := (defensive_events.filter (fun e => optGt e.x 60)).length
      let low_block := (defensive_events.filter (fun e => optLt e.x 40)).length
      let losses :=
        if df.cols.pass_outcome then
          team_events.filter (fun e =>
            (optIn e.type_name ["Dispossessed", "Miscontrol"] ||
              (decide (e.type_name = some "Pass") && e.pass_outcome.isSome)) && e.x.isSome)
        else
          team_events.filter (fun e =>
            optIn e.type_name ["Dispossessed", "Miscontrol"] && e.x.isSome)
      .ok ⟨high_press, low_block, (losses.filter (fun e => optGt e.x 80)).length⟩

/-- Result record of `passing_concentration` (spatial.py:166-211); the two
spread fields hold the sample variance standing in for `Series.std()`. -/
structure PassSpread where
  pass_width_spread : Option ℚ
  pass_depth_spread : Option ℚ
  back_passes_pct : Option ℚ
deriving DecidableEq

/-- `passing_concentration` (spatial.py:166-211).  Reads `team_id`,
`type_name`, `x`, `y`, `end_x` unguarded (in that order). -/
def passing_concentration (df : DF) (team_id : Int) : Except String PassSpread :=
  if !df.cols.team_id then .error "KeyError: team_id"
  else if !df.cols.type_name then .error "KeyError: type_name"
  else if !df.cols.x then .error "KeyError: x"
  else if !df.cols.y then .error "KeyError: y"
  else if !df.cols.end_x then .error "KeyError: end_x"
  else
    let team_passes := df.rows.filter (fun e =>
      decide (e.team_id = some team_id) && decide (e.type_name = some "Pass") &&
        e.x.isSome && e.y.isSome && e.end_x.isSome)
    if team_passes.length = 0 then .ok ⟨none, none, none⟩
    else
      let backward := (team_passes.filter (fun e =>
        match e.end_x, e.x with
        | some ex, some sx => decide (ex < sx)
        | _, _ => false)).length
      .ok ⟨sampleVariance (team_passes.filterMap Event.y),
           sampleVariance (team_passes.filterMap Event.x),
           some ((backward : ℚ) / (team_passes.length : ℚ))⟩

/-- `filter_by_period` (utils.py:71-75): events of a single period; a table
without a `period` column is returned unchanged. -/
def filter_by_period (df : DF) (period : Int) : DF :=
  if !df.cols.period then df
  else { df with rows := df.rows.filter (fun e => decide (e.period = some period)) }

/-- `filter_last_n_minutes` (utils.py:78-108).  The reference period is the
given one, else the maximum period present; the period length is floored at
`45*60` seconds; events of the reference period with elapsed seconds
`>= cutoff` are kept.  The branch returning early after `_seconds` was added
leaks that temporary column (`seconds_col`). -/
def filter_last_n_minutes (df : DF) (n_minutes : ℚ) (period : Option Int) : DF :=
  if !df.cols.period || !df.cols.timestamp then df
  else
    let periods := (df.rows.filterMap Event.period).dedup
    if periods.isEmpty then { df with cols := { df.cols with seconds_col := true } }
    else
      let use_period := period.getD (listMaxI periods)
      let period_events := df.rows.filter (fun e => decide (e.period = some use_period))
      if period_events.isEmpty then
        { cols := { df.cols with seconds_col := true }, rows := period_events }
      else
        let period_max_seconds :=
          listMaxQ (period_events.map (fun e => timestampToSeconds e.timestamp))
        let period_length_seconds := max period_max_seconds (45 * 60)
        let cutoff := period_length_seconds - n_minutes * 60
        { cols := { df.cols with seconds_col := false },
          rows := df.rows.filter (fun e =>
            decide (e.period = some use_period) && decide (cutoff ≤ timestampToSeconds e.timestamp)) }

/-- `_team_id_to_name_map` (aggregator.py:21-31): for each distinct non-null
`team_id`, the team name of its first row, falling back to `"Team_{id}"`
when the `team_name` column is absent or that cell is null. -/
def team_id_to_name_map (df : DF) : List (Int × String) :=
  if df.rows.isEmpty || !df.cols.team_id then []
  else
    ((df.rows.filterMap Event.team_id).dedup).map (fun t =>
      (t, match (if df.cols.team_name then
              (df.rows.find? (fun e => decide (e.team_id = some t))).bind Event.team_name
            else none) with
          | some nm => nm
          | none => "Team_" ++ toString t))

/-- One per-team record of the Segment Result (aggregator.py:73-86).  The
schema treats `avg_x`/`avg_y` as nullable, hence `Option ℚ`; the
implementation as written always supplies a number for them. -/
structure TeamMetrics where
  team_id : Int
  team_name : String
  possession_share : ℚ
  passes : Nat
  passes_successful : Nat
  pass_completion_pct : Option ℚ
  shots : Nat
  shots_on_target : Nat
  goals : Nat
  avg_x : Option ℚ
  avg_y : Option ℚ
  final_third_entries : Nat
deriving DecidableEq

/-- The Segment Result (aggregator.py:89-96); the `totals` dict is flattened
into its two entries. -/
structure SegmentResult where
  segment : String
  teams : List TeamMetrics
  total_passes : Nat
  total_shots : Nat
deriving DecidableEq

/-- Insert into a sorted list of ids (ascending). -/
def insertSorted (a : Int) : List Int → List Int
  | [] => [a]
  | b :: rest => if a ≤ b then a :: b :: rest else b :: insertSorted a rest

/-- `sorted(...)` on a list of ids. -/
def sortInts : List Int → List Int
  | [] => []
  | a :: rest => insertSorted a (sortInts rest)

/-- The loop body of `compute_match_metrics` (aggregator.py:62-86) for one
team id: look up each per-team dict with its default and assemble the
record. -/
def mkTeamRecord (teams_map : List (Int × String)) (possession : List (Int × ℚ))
    (pass_counts pass_success shot_counts shots_ot : List (Int × Nat))
    (goals : List (Option Int × Nat)) (avg_pos : List (Int × ℚ × ℚ))
    (final_third : List (Int × Nat)) (tid : Int) : TeamMetrics :=
  let passes := (dlookup pass_counts tid).getD 0
  let passes_ok := (dlookup pass_success tid).getD 0
  let pass_pct : Option ℚ :=
    if passes ≠ 0 then some ((passes_ok : ℚ) / (passes : ℚ) * 100) else none
  let pos := dlookup avg_pos tid
  { team_id := tid,
    team_name := (dlookup teams_map tid).getD ("Team_" ++ toString tid),
    possession_share := pyRoundTo 4 ((dlookup possession tid).getD 0),
    passes := passes,
    passes_successful := passes_ok,
    pass_completion_pct := pass_pct.map (pyRoundTo 2),
    shots := (dlookup shot_counts tid).getD 0,
    shots_on_target := (dlookup shots_ot tid).getD 0,
    goals := (dlookup goals (some tid)).getD 0,
    avg_x := some (pyRoundTo 2 ((pos.map (fun p => p.1)).getD 0)),
    avg_y := some (pyRoundTo 2 ((pos.map (fun p => p.2)).getD 0)),
    final_third_entries := (dlookup final_third tid).getD 0 }

/-- `compute_match_metrics` (aggregator.py:34-96): run every metric function
once, assemble one record per known team id (sorted ascending) and the
totals.  Each metric call is sequenced exactly as in the source, so a
`KeyError` in any of them propagates. -/
def compute_match_metrics (df : DF) (segment_label : String) :
    Except String SegmentResult :=
  let teams_map := team_id_to_name_map df
  (possession_share_from_passes df).bind fun possession =>
  (pass_counts_by_team df).bind fun pass_counts =>
  (successful_pass_counts_by_team df).bind fun pass_success =>
  (shot_counts_by_team df).bind fun shot_counts =>
  (shots_on_target_by_team df).bind fun shots_ot =>
  (goals_by_team df).bind fun goals =>
  (average_position_by_team df).bind fun avg_pos =>
  (final_third_entries_by_team df).bind fun final_third =>
  .ok { segment := segment_label,
        teams := (sortInts (teams_map.map (fun p => p.1))).map
          (mkTeamRecord teams_map possession pass_counts pass_success
            shot_counts shots_ot goals avg_pos final_third),
        total_passes := (pass_counts.map (fun p => p.2)).sum,
        total_shots := (shot_counts.map (fun p => p.2)).sum }

/-! ## Helper lemmas -/

theorem dlookup_map_keys {α β : Type} [DecidableEq α] (f : α → β) (keys : List α) (k : α) :
    dlookup (keys.map (fun t => (t, f t))) k = if k ∈ keys then some (f k) else none := by
  induction keys with
  | nil => simp [dlookup]
  | cons t rest ih =>
      by_cases h : t = k
      · subst h; simp [dlookup]
      · simp [dlookup, h, ih, Ne.symm h]

theorem dlookup_map_some {β : Type} (f : Int → β) (keys : List Int) (k : Int) :
    dlookup (keys.map (fun t => ((some t : Option Int), f t))) (some k) =
      if k ∈ keys then some (f k) else none := by
  induction keys with
  | nil => simp [dlookup]
  | cons t rest ih =>
      by_cases h : t = k
      · subst h; simp [dlookup]
      · simp [dlookup, h, ih, Ne.symm h]

theorem getD_dlookup_valueCounts (rows : List Event) (t : Int) :
    (dlookup (valueCounts rows) t).getD 0 =
      (rows.filter (fun e => decide (e.team_id = some t))).length := by
  unfold valueCounts
  rw [dlookup_map_keys]
  by_cases h : t ∈ (rows.filterMap Event.team_id).dedup
  · simp [h]
  · simp only [h, if_false, Option.getD_none]
    symm
    rw [List.length_eq_zero, List.filter_eq_nil_iff]
    intro e he
    simp only [decide_eq_true_eq]
    intro hteam
    exact h (List.mem_dedup.mpr (List.mem_filterMap.mpr ⟨e, he, hteam⟩))

theorem length_filter_mono {α : Type} (l : List α) (p q : α → Bool)
    (h : ∀ a, p a = true → q a = true) :
    (l.filter p).length ≤ (l.filter q).length := by
  induction l with
  | nil => simp
  | cons a rest ih =>
      by_cases hp : p a = true
      · simp [List.filter_cons, hp, h a hp, Nat.succ_le_succ ih]
      · by_cases hq : q a = true <;>
          simp [List.filter_cons, hp, hq] <;> omega

theorem sum_map_div (l : List ℚ) (c : ℚ) :
    (l.map (fun x => x / c)).sum = l.sum / c := by
  induction l with
  | nil => simp
  | cons a rest ih => simp [ih, add_div]

/-! ## Claim C6 -/

/-- Claim C6: `filter_by_period` is idempotent — filtering an
already-filtered table by the same period returns an identical table. -/
theorem claim_C6 (df : DF) (p : Int) :
    filter_by_period (filter_by_period df p) p = filter_by_period df p := by
  unfold filter_by_period
  by_cases h : df.cols.period
  · simp [h, List.filter_filter]
  · simp [h]

/-! ## Claim C2: totality / raising behavior of the metric functions -/

theorem isOk_ok {α : Type} (a : α) : (Except.ok a : Except String α).isOk = true := rfl

theorem isOk_error {α : Type} (e : String) :
    (Except.error e : Except String α).isOk = false := rfl

theorem possession_share_isOk (df : DF) : (possession_share_from_passes df).isOk = true := by
  by_cases h2 : df.cols.team_id <;> by_cases h3 : df.cols.type_name <;>
    simp [possession_share_from_passes, apply_ite Except.isOk, isOk_ok, h2, h3]

theorem ball_receipts_isOk (df : DF) : (ball_receipts_by_team df).isOk = true := by
  by_cases h2 : df.cols.team_id <;> by_cases h3 : df.cols.type_name <;>
    simp [ball_receipts_by_team, apply_ite Except.isOk, isOk_ok, h2, h3]

theorem pass_counts_isOk (df : DF) : (pass_counts_by_team df).isOk = true := by
  by_cases h2 : df.cols.team_id <;> by_cases h3 : df.cols.type_name <;>
    simp [pass_counts_by_team, apply_ite Except.isOk, isOk_ok, h2, h3]

theorem successful_pass_isOk (df : DF) : (successful_pass_counts_by_team df).isOk = true := by
  by_cases h2 : df.cols.team_id <;> by_cases h3 : df.cols.type_name <;>
    simp [successful_pass_counts_by_team, apply_ite Except.isOk, isOk_ok, h2, h3]

theorem shot_counts_isOk (df : DF) : (shot_counts_by_team df).isOk = true := by
  by_cases h2 : df.cols.team_id <;> by_cases h3 : df.cols.type_name <;>
    simp [shot_counts_by_team, apply_ite Except.isOk, isOk_ok, h2, h3]

theorem shots_on_target_isOk (df : DF) : (shots_on_target_by_team df).isOk = true := by
  by_cases h2 : df.cols.team_id <;> by_cases h3 : df.cols.type_name <;>
    simp [shots_on_target_by_team, apply_ite Except.isOk, isOk_ok, h2, h3,
      shot_counts_isOk]

theorem goals_isOk (df : DF) : (goals_by_team df).isOk = true := by
  by_cases h2 : df.cols.team_id <;> by_cases h3 : df.cols.type_name <;>
    simp [goals_by_team, apply_ite Except.isOk, isOk_ok, h2, h3]

theorem final_third_isOk (df : DF) : (final_third_entries_by_team df).isOk = true := by
  by_cases h2 : df.cols.team_id <;> by_cases h3 : df.cols.x <;>
    simp [final_third_entries_by_team, apply_ite Except.isOk, isOk_ok, h2, h3]

theorem average_position_isOk_iff (df : DF) :
    (average_position_by_team df).isOk = true ↔
      (df.rows.isEmpty || !df.cols.team_id || (df.cols.x && df.cols.y)) = true := by
  by_cases he : df.rows.isEmpty <;> by_cases ht : df.cols.team_id <;>
    by_cases hx : df.cols.x <;> by_cases hy : df.cols.y <;>
      simp [average_position_by_team, apply_ite Except.isOk, isOk_ok, isOk_error,
        he, ht, hx, hy]

theorem attack_distribution_isOk_iff (df : DF) (tid : Int) :
    (attack_distribution_by_zone df tid).isOk = true ↔
      (df.cols.team_id && df.cols.type_name && df.cols.x && df.cols.y) = true := by
  by_cases h1 : df.cols.team_id <;> by_cases h2 : df.cols.type_name <;>
    by_cases h3 : df.cols.x <;> by_cases h4 : df.cols.y <;>
      simp [attack_distribution_by_zone, apply_ite Except.isOk, isOk_ok, isOk_error,
        h1, h2, h3, h4]

theorem defensive_zone_isOk_iff (df : DF) (tid : Int) :
    (defensive_zone_activity df tid).isOk = true ↔
      (df.cols.team_id && df.cols.type_name && df.cols.x) = true := by
  by_cases h1 : df.cols.team_id <;> by_cases h2 : df.cols.type_name <;>
    by_cases h3 : df.cols.x <;>
      simp [defensive_zone_activity, apply_ite Except.isOk, isOk_ok, isOk_error,
        h1, h2, h3]

theorem passing_concentration_isOk_iff (df : DF) (tid : Int) :
    (passing_concentration df tid).isOk = true ↔
      (df.cols.team_id && df.cols.type_name && df.cols.x && df.cols.y &&
        df.cols.end_x) = true := by
  by_cases h1 : df.cols.team_id <;> by_cases h2 : df.cols.type_name <;>
    by_cases h3 : df.cols.x <;> by_cases h4 : df.cols.y <;> by_cases h5 : df.cols.end_x <;>
      simp [passing_concentration, apply_ite Except.isOk, isOk_ok, isOk_error,
        h1, h2, h3, h4, h5]

/-- A non-empty table that has a `team_id` column but no `x`/`y` columns:
`average_position_by_team` raises `KeyError` on it. -/
def dfMissingXY : DF :=
  { cols := { x := false, y := false, end_x := false }, rows := [{ team_id := some 1 }] }

/-- Claim C2 counterexample: the claim says every metric function returns an
empty or default result and never raises on a table missing optional columns
such as `x`/`y`; but `average_position_by_team` applied to a non-empty table
with `team_id` present and `x` absent raises `KeyError` (here: returns an
error, not a result). -/
theorem claim_C2_counterexample : (average_position_by_team dfMissingXY).isOk = false := by rfl

/-- Claim C2 (amended): the metric functions of `metrics.py` whose bodies
guard on emptiness and on the `team_id`/`type_name` (and, for final-third
entries, `x`) columns are total and never raise; `average_position_by_team`
raises exactly when the table is non-empty with `team_id` present but `x` or
`y` absent; and the spatial functions raise exactly when any of the columns
they read unguarded (`team_id`, `type_name`, `x`; plus `y` for the attack
distribution; plus `y` and `end_x` for passing concentration) is absent. -/
theorem claim_C2 (df : DF) (tid : Int) :
    (possession_share_from_passes df).isOk = true ∧
    (ball_receipts_by_team df).isOk = true ∧
    (pass_counts_by_team df).isOk = true ∧
    (successful_pass_counts_by_team df).isOk = true ∧
    (shot_counts_by_team df).isOk = true ∧
    (shots_on_target_by_team df).isOk = true ∧
    (goals_by_team df).isOk = true ∧
    (final_third_entries_by_team df).isOk = true ∧
    ((average_position_by_team df).isOk = true ↔
      (df.rows.isEmpty || !df.cols.team_id || (df.cols.x && df.cols.y)) = true) ∧
    ((attack_distribution_by_zone df tid).isOk = true ↔
      (df.cols.team_id && df.cols.type_name && df.cols.x && df.cols.y) = true) ∧
    ((defensive_zone_activity df tid).isOk = true ↔
      (df.cols.team_id && df.cols.type_name && df.cols.x) = true) ∧
    ((passing_concentration df tid).isOk = true ↔
      (df.cols.team_id && df.cols.type_name && df.cols.x && df.cols.y &&
        df.cols.end_x) = true) :=
  ⟨possession_share_isOk df, ball_receipts_isOk df, pass_counts_isOk df,
    successful_pass_isOk df, shot_counts_isOk df, shots_on_target_isOk df,
    goals_isOk df, final_third_isOk df, average_position_isOk_iff df,
    attack_distribution_isOk_iff df tid, defensive_zone_isOk_iff df tid,
    passing_concentration_isOk_iff df tid⟩

/-! ## Claim C3: explicit zero goals -/

/-- A table whose only row is a Shot by team 1 with a non-`Goal` outcome,
with the `shot_outcome` column present. -/
def dfC3 : DF :=
  { cols := {},
    rows := [{ team_id := some 1, type_name := some "Shot", shot_outcome := some "Off T" }] }

/-- A table whose only row is a Shot by team 1, with the `shot_outcome`
column absent. -/
def dfC3A : DF :=
  { cols := { shot_outcome := false },
    rows := [{ team_id := some 1, type_name := some "Shot" }] }

/-- Claim C3 counterexample: team 1 has a Shot event in `dfC3` and the
`shot_outcome` column is present, yet `goals_by_team` returns the empty
dict — the team is simply absent, not present with an explicit `0` as the
claim asserts for the column-present case. -/
theorem claim_C3_counterexample :
    (dfC3.rows.filter (fun e =>
      decide (e.type_name = some "Shot") && decide (e.team_id = some 1))).length = 1 ∧
    goals_by_team dfC3 = .ok [] := by
  exact ⟨rfl, rfl⟩

/-- Claim C3 (amended): when the `shot_outcome` column is absent, every team
with at least one Shot event is present in `goals_by_team` with an explicit
`0`; but when the column is present, a team whose shots include no
`Goal`-outcome shot is absent from the result (the aggregator later defaults
it to `0` on lookup). -/
theorem claim_C3 (df : DF) (tid : Int)
    (ht : df.cols.team_id = true) (htn : df.cols.type_name = true) :
    ((df.cols.shot_outcome = false) →
      (∃ e ∈ df.rows, e.type_name = some "Shot" ∧ e.team_id = some tid) →
      ∃ d, goals_by_team df = .ok d ∧ dlookup d (some tid) = some 0) ∧
    ((df.cols.shot_outcome = true) →
      (∃ e ∈ df.rows, e.type_name = some "Shot" ∧ e.team_id = some tid) →
      (∀ e ∈ df.rows, e.type_name = some "Shot" → e.team_id = some tid →
        e.shot_outcome ≠ some "Goal") →
      ∃ d, goals_by_team df = .ok d ∧ dlookup d (some tid) = none) := by
  constructor
  · intro hso ⟨e, he, hty, htm⟩
    have hne : df.rows.isEmpty = false := by
      cases hr : df.rows
      · rw [hr] at he; simp at he
      · rfl
    have hmem : e ∈ df.rows.filter (fun e => decide (e.type_name = some "Shot")) :=
      List.mem_filter.mpr ⟨he, by simp [hty]⟩
    refine ⟨((df.rows.filter (fun e =>
        decide (e.type_name = some "Shot"))).map Event.team_id).dedup.map
        (fun t => (t, 0)), ?_, ?_⟩
    · unfold goals_by_team
      simp only [hne, ht, htn, hso, Bool.not_true, Bool.not_false, Bool.or_self,
        Bool.false_or, Bool.or_true, Bool.or_false, Bool.false_eq_true, if_false, if_true]
    · have hin : (some tid : Option Int) ∈
          ((df.rows.filter (fun e => decide (e.type_name = some "Shot"))).map
            Event.team_id).dedup :=
        List.mem_dedup.mpr (List.mem_map.mpr ⟨e, hmem, htm⟩)
      rw [dlookup_map_keys (fun _ => 0)]
      simp [hin]
  · intro hso ⟨e, he, hty, htm⟩ hng
    have hmem : e ∈ df.rows.filter (fun e => decide (e.type_name = some "Shot")) :=
      List.mem_filter.mpr ⟨he, by simp [hty]⟩
    have hne : df.rows.isEmpty = false := by
      cases hr : df.rows
      · rw [hr] at he; simp at he
      · rfl
    have hsne : (df.rows.filter (fun e =>
        decide (e.type_name = some "Shot"))).isEmpty = false := by
      cases hr : df.rows.filter (fun e => decide (e.type_name = some "Shot"))
      · rw [hr] at hmem; simp at hmem
      · rfl
    have hnotin : tid ∉ (((df.rows.filter (fun e =>
        decide (e.type_name = some "Shot"))).filter (fun e =>
          decide (e.shot_outcome = some "Goal"))).filterMap Event.team_id).dedup := by
      intro hin
      obtain ⟨g, hg, hgt⟩ := List.mem_filterMap.mp (List.mem_dedup.mp hin)
      obtain ⟨hg1, hg2⟩ := List.mem_filter.mp hg
      obtain ⟨hg3, hg4⟩ := List.mem_filter.mp hg1
      exact hng g hg3 (by simpa using hg4) hgt (by simpa using hg2)
    refine ⟨(((df.rows.filter (fun e =>
        decide (e.type_name = some "Shot"))).filter (fun e =>
          decide (e.shot_outcome = some "Goal"))).filterMap
            Event.team_id).dedup.map (fun t => ((some t : Option Int),
        (((df.rows.filter (fun e =>
          decide (e.type_name = some "Shot"))).filter (fun e =>
            decide (e.shot_outcome = some "Goal"))).filter (fun e =>
              decide (e.team_id = some t))).length)), ?_, ?_⟩
    · unfold goals_by_team
      simp only [hne, ht, htn, hso, hsne, Bool.not_true, Bool.not_false, Bool.or_self,
        Bool.false_or, Bool.or_true, Bool.or_false, Bool.false_eq_true, if_false, if_true]
    · rw [dlookup_map_some, if_neg hnotin]

/-- Claim C3 witness: both amended cases at concrete tables — with the
column absent team 1 is present with goals `0`; with the column present and
no goal, team 1 is absent from the dict. -/
theorem claim_C3_witness :
    (∃ d, goals_by_team dfC3A = .ok d ∧ dlookup d (some 1) = some 0) ∧
    (∃ d, goals_by_team dfC3 = .ok d ∧ dlookup d (some 1) = none) :=
  ⟨(claim_C3 dfC3A 1 rfl rfl).1 rfl
      ⟨{ team_id := some 1, type_name := some "Shot" }, by decide, by decide, by decide⟩,
    (claim_C3 dfC3 1 rfl rfl).2 rfl
      ⟨{ team_id := some 1, type_name := some "Shot", shot_outcome := some "Off T" },
        by decide, by decide, by decide⟩
      (by decide)⟩


/-! ## Claim C5: possession shares sum to one -/

/-- A table with a single Pass event whose `team_id` is null. -/
def dfC5bad : DF := { cols := {}, rows := [{ type_name := some "Pass" }] }

/-- Five passes: three by team 1, two by team 2 (the spec scenario). -/
def dfC5 : DF :=
  { cols := {},
    rows := [{ team_id := some 1, type_name := some "Pass" },
             { team_id := some 1, type_name := some "Pass" },
             { team_id := some 1, type_name := some "Pass" },
             { team_id := some 2, type_name := some "Pass" },
             { team_id := some 2, type_name := some "Pass" }] }

/-- Claim C5 counterexample: `dfC5bad` contains a Pass event, yet the
returned share dict is empty, so the shares present sum to `0`, not `1` —
`value_counts` drops the null `team_id`, making the total `0`. -/
theorem claim_C5_counterexample :
    (dfC5bad.rows.filter (fun e => decide (e.type_name = some "Pass"))).length = 1 ∧
    possession_share_from_passes dfC5bad = .ok [] ∧
    ((([] : List (Int × ℚ)).map (fun p => p.2)).sum = 0) :=
  ⟨rfl, rfl, rfl⟩

/-- Claim C5 (amended): whenever the `team_id`/`type_name` columns are
present and at least one Pass event has a non-null `team_id`, every share
returned by `possession_share_from_passes` lies in `[0, 1]` and the shares
sum to exactly `1`. -/
theorem claim_C5 (df : DF)
    (ht : df.cols.team_id = true) (htn : df.cols.type_name = true)
    (hp : ∃ e ∈ df.rows, e.type_name = some "Pass" ∧ e.team_id.isSome) :
    ∃ shares, possession_share_from_passes df = .ok shares ∧
      (∀ p ∈ shares, 0 ≤ p.2 ∧ p.2 ≤ 1) ∧ (shares.map (fun p => p.2)).sum = 1 := by
  obtain ⟨e, he, hty, hsm⟩ := hp
  obtain ⟨t0, ht0⟩ := Option.isSome_iff_exists.mp hsm
  have hne : df.rows.isEmpty = false := by
    cases hr : df.rows
    · rw [hr] at he; simp at he
    · rfl
  have hmem : e ∈ df.rows.filter (fun e => decide (e.type_name = some "Pass")) :=
    List.mem_filter.mpr ⟨he, by simp [hty]⟩
  have hpne : (df.rows.filter (fun e =>
      decide (e.type_name = some "Pass"))).isEmpty = false := by
    cases hr : df.rows.filter (fun e => decide (e.type_name = some "Pass"))
    · rw [hr] at hmem; simp at hmem
    · rfl
  set passes := df.rows.filter (fun e => decide (e.type_name = some "Pass")) with hpdef
  set counts := valueCounts passes with hcdef
  set total := (counts.map (fun p => p.2)).sum with htotdef
  have hcnt_mem : ((passes.filter (fun e => decide (e.team_id = some t0))).length) ∈
      counts.map (fun p => p.2) := by
    have ht0in : t0 ∈ (passes.filterMap Event.team_id).dedup :=
      List.mem_dedup.mpr (List.mem_filterMap.mpr ⟨e, hmem, ht0⟩)
    have : (t0, (passes.filter (fun e => decide (e.team_id = some t0))).length) ∈ counts := by
      rw [hcdef]; unfold valueCounts
      exact List.mem_map.mpr ⟨t0, ht0in, rfl⟩
    exact List.mem_map.mpr ⟨_, this, rfl⟩
  have hcnt_pos : 1 ≤ (passes.filter (fun e => decide (e.team_id = some t0))).length := by
    have : e ∈ passes.filter (fun e => decide (e.team_id = some t0)) :=
      List.mem_filter.mpr ⟨hmem, by simp [ht0]⟩
    cases hr : passes.filter (fun e => decide (e.team_id = some t0))
    · rw [hr] at this; simp at this
    · simp
  have htot_pos : total ≠ 0 := by
    have hle := List.single_le_sum (fun (x : Nat) _ => Nat.zero_le x) _ hcnt_mem
    omega
  have hresult : possession_share_from_passes df =
      .ok (counts.map (fun p => (p.1, (p.2 : ℚ) / (total : ℚ)))) := by
    unfold possession_share_from_passes
    rw [← hpdef]
    simp only [hne, ht, htn, hpne, Bool.not_true, Bool.or_self, Bool.false_or,
      Bool.or_false, Bool.false_eq_true, if_false]
    rw [← hcdef, ← htotdef, if_neg htot_pos]
  have htotQ : (0 : ℚ) < (total : ℚ) := by
    exact_mod_cast Nat.pos_of_ne_zero htot_pos
  refine ⟨_, hresult, ?_, ?_⟩
  · intro p hpmem
    obtain ⟨q, hq, rfl⟩ := List.mem_map.mp hpmem
    refine ⟨by positivity, ?_⟩
    rw [div_le_one htotQ]
    exact_mod_cast List.single_le_sum (fun (x : Nat) _ => Nat.zero_le x) _
      (List.mem_map.mpr ⟨q, hq, rfl⟩)
  · rw [List.map_map]
    have h1 : ((fun p : Int × ℚ => p.2) ∘ (fun p : Int × Nat =>
        ((p.1, (p.2 : ℚ) / (total : ℚ)) : Int × ℚ)))
        = (fun x : ℚ => x / (total : ℚ)) ∘ (fun p : Int × Nat => (p.2 : ℚ)) := rfl
    rw [h1, ← List.map_map, sum_map_div]
    have h2 : ((counts.map (fun p : Int × Nat => (p.2 : ℚ))).sum) = ((total : ℚ)) := by
      rw [htotdef, Nat.cast_list_sum, List.map_map]; rfl
    rw [h2, div_self (by exact_mod_cast htot_pos)]

/-- Claim C5 witness: the amended claim at the spec scenario table (3 passes
team 1, 2 passes team 2), plus the concrete shares `3/5` and `2/5`. -/
theorem claim_C5_witness :
    (∃ shares, possession_share_from_passes dfC5 = .ok shares ∧
      (∀ p ∈ shares, 0 ≤ p.2 ∧ p.2 ≤ 1) ∧ (shares.map (fun p => p.2)).sum = 1) ∧
    possession_share_from_passes dfC5 = .ok [(1, 3 / 5), (2, 2 / 5)] :=
  ⟨claim_C5 dfC5 rfl rfl
      ⟨{ team_id := some 1, type_name := some "Pass" }, by decide, by decide, by decide⟩,
    by
      simp [possession_share_from_passes, dfC5, valueCounts, List.filter, List.filterMap,
        List.dedup_cons_of_mem, List.dedup_cons_of_not_mem]⟩


/-! ## Claim C9: attacking-zone percentages sum to one -/

theorem partition3_length (l : List Event) (hy : ∀ e ∈ l, e.y.isSome = true) :
    (l.filter (fun e => optLt e.y (2667 / 100))).length +
      (l.filter (fun e => optGe e.y (2667 / 100) && optLe e.y (5333 / 100))).length +
      (l.filter (fun e => optGt e.y (5333 / 100))).length = l.length := by
  induction l with
  | nil => simp
  | cons a rest ih =>
      have hrest := ih (fun e he => hy e (List.mem_cons_of_mem a he))
      obtain ⟨v, hv⟩ := Option.isSome_iff_exists.mp (hy a (List.mem_cons_self a rest))
      by_cases h1 : v < 2667 / 100
      · have hA2 : ¬((2667 / 100 : ℚ) ≤ v) := not_le.mpr h1
        have hA3 : ¬((5333 / 100 : ℚ) < v) := fun hgt =>
          hA2 (le_of_lt (lt_trans (by norm_num) hgt))
        have e1 : optLt a.y (2667 / 100) = true := by simp [optLt, hv, h1]
        have e2 : (optGe a.y (2667 / 100) && optLe a.y (5333 / 100)) = false := by
          simp [optGe, optLe, hv, hA2]
        have e3 : optGt a.y (5333 / 100) = false := by simp [optGt, hv, hA3]
        simp only [List.filter_cons, e1, e2, e3]
        simp
        omega
      · by_cases h2 : v ≤ 5333 / 100
        · have hB1 : (2667 / 100 : ℚ) ≤ v := not_lt.mp h1
          have hB3 : ¬((5333 / 100 : ℚ) < v) := not_lt.mpr h2
          have e1 : optLt a.y (2667 / 100) = false := by simp [optLt, hv, h1]
          have e2 : (optGe a.y (2667 / 100) && optLe a.y (5333 / 100)) = true := by
            simp [optGe, optLe, hv, hB1, h2]
          have e3 : optGt a.y (5333 / 100) = false := by simp [optGt, hv, hB3]
          simp only [List.filter_cons, e1, e2, e3]
          simp
          omega
        · have hC3 : (5333 / 100 : ℚ) < v := not_le.mp h2
          have hC1 : ¬(v < 2667 / 100) := h1
          have e1 : optLt a.y (2667 / 100) = false := by simp [optLt, hv, h1]
          have e2 : (optGe a.y (2667 / 100) && optLe a.y (5333 / 100)) = false := by
            simp [optGe, optLe, hv, h2]
          have e3 : optGt a.y (5333 / 100) = true := by simp [optGt, hv, hC3]
          simp only [List.filter_cons, e1, e2, e3]
          simp
          omega

/-- Claim C9: whenever `attack_distribution_by_zone` reports a non-zero
`attacking_half_actions`, the three zone percentages are all present,
non-negative, and sum to exactly `1`, because the `y`-classification
partitions the attacking-half subset. -/
theorem claim_C9 (df : DF) (tid : Int) (res : ZoneDist)
    (h : attack_distribution_by_zone df tid = .ok res)
    (hn : res.attacking_half_actions ≠ 0) :
    ∃ l c r, res.left_flank_attacks_pct = some l ∧ res.center_attacks_pct = some c ∧
      res.right_flank_attacks_pct = some r ∧ l + c + r = 1 ∧
      0 ≤ l ∧ 0 ≤ c ∧ 0 ≤ r := by
  by_cases h1 : df.cols.team_id
  case neg => simp [attack_distribution_by_zone, h1] at h
  by_cases h2 : df.cols.type_name
  case neg => simp [attack_distribution_by_zone, h1, h2] at h
  by_cases h3 : df.cols.x
  case neg => simp [attack_distribution_by_zone, h1, h2, h3] at h
  by_cases h4 : df.cols.y
  case neg => simp [attack_distribution_by_zone, h1, h2, h3, h4] at h
  simp only [attack_distribution_by_zone, h1, h2, h3, h4, Bool.not_true,
    Bool.false_eq_true, if_false] at h
  set team_events := df.rows.filter (fun e => decide (e.team_id = some tid)) with hte
  set attacking_events := team_events.filter (fun e =>
    optIn e.type_name ["Pass", "Carry", "Dribble", "Shot"] && e.x.isSome && e.y.isSome)
    with hae
  set attacking_half := attacking_events.filter (fun e => optGt e.x 60) with hah
  by_cases hz1 : attacking_events.length = 0
  · rw [if_pos hz1] at h
    cases h
    simp at hn
  rw [if_neg hz1] at h
  by_cases hz2 : attacking_half.length = 0
  · rw [if_pos hz2] at h
    cases h
    simp at hn
  rw [if_neg hz2] at h
  have hy : ∀ e ∈ attacking_half, e.y.isSome = true := by
    intro e he
    have h5 := (List.mem_filter.mp (List.mem_filter.mp he).1).2
    simp only [Bool.and_eq_true] at h5
    exact h5.2
  have hpart := partition3_length attacking_half hy
  set lcount := (attacking_half.filter (fun e => optLt e.y (2667 / 100))).length with hlc
  set ccount := (attacking_half.filter (fun e =>
    optGe e.y (2667 / 100) && optLe e.y (5333 / 100))).length with hcc
  set rcount := (attacking_half.filter (fun e => optGt e.y (5333 / 100))).length with hrc
  have htpos : 0 < lcount + ccount + rcount := by
    rw [hpart]; exact Nat.pos_of_ne_zero hz2
  rw [if_pos htpos, if_pos htpos, if_pos htpos] at h
  cases h
  refine ⟨_, _, _, rfl, rfl, rfl, ?_, by positivity, by positivity, by positivity⟩
  have hQ : ((lcount + ccount + rcount : Nat) : ℚ) ≠ 0 := by
    exact_mod_cast Nat.pos_iff_ne_zero.mp htpos
  rw [div_add_div_same, div_add_div_same, ← Nat.cast_add, ← Nat.cast_add,
    div_self hQ]


/-- Two attacking-half Pass events for team 1: one left (`y = 10`), one
center (`y = 40`). -/
def dfC9 : DF :=
  { cols := {},
    rows := [{ team_id := some 1, type_name := some "Pass", x := some 70, y := some 10 },
             { team_id := some 1, type_name := some "Pass", x := some 70, y := some 40 }] }

/-- Claim C9 witness: at the concrete table the report has two
attacking-half actions and the shares `1/2 + 1/2 + 0` sum to `1`. -/
theorem claim_C9_witness :
    ∃ res, attack_distribution_by_zone dfC9 1 = .ok res ∧
      res.attacking_half_actions = 2 ∧
      ∃ l c r, res.left_flank_attacks_pct = some l ∧ res.center_attacks_pct = some c ∧
        res.right_flank_attacks_pct = some r ∧ l + c + r = 1 ∧
        0 ≤ l ∧ 0 ≤ c ∧ 0 ≤ r := by
  have h : attack_distribution_by_zone dfC9 1 =
      .ok ⟨some (1 / 2), some (1 / 2), some 0, 2, none⟩ := by
    simp [attack_distribution_by_zone, dfC9, optIn, optGt, optLt, optGe, optLe,
      List.filter_cons]
    norm_num
    exact List.cons_ne_nil _ _
  exact ⟨_, h, rfl, claim_C9 dfC9 1 _ h (by simp)⟩


/-! ## Claim C1: the last-N-minutes window -/

/-- Elapsed seconds as claim C1 words them: `h*3600 + m*60 + s`, with
malformed or missing timestamps mapping to `0` — the fractional part is
ignored.  (Stated from the claim, to be compared with `timestampToSeconds`
from the source.) -/
def claimElapsedSeconds : TsCell → ℚ
  | .time h m s _ => ((h * 3600 + m * 60 + s : Nat) : ℚ)
  | _ => 0

/-- The rows claim C1 says `filter_last_n_minutes` keeps: events of the
reference period whose claim-elapsed seconds reach
`max(observed max, 45*60) - n*60`.  (Stated from the claim.) -/
def claimKeptRows (df : DF) (n_minutes : ℚ) (period : Option Int) : List Event :=
  let periods := (df.rows.filterMap Event.period).dedup
  let use_period := period.getD (listMaxI periods)
  let ref := df.rows.filter (fun e => decide (e.period = some use_period))
  let cutoff :=
    max (listMaxQ (ref.map (fun e => claimElapsedSeconds e.timestamp))) (45 * 60)
      - n_minutes * 60
  df.rows.filter (fun e =>
    decide (e.period = some use_period) &&
      decide (cutoff ≤ claimElapsedSeconds e.timestamp))

/-- Period-1 events at `45:00.5` and `35:00`. -/
def dfC1 : DF :=
  { cols := {},
    rows := [{ period := some 1, timestamp := .time 0 45 0 (some 500) },
             { period := some 1, timestamp := .time 0 35 0 none }] }

/-- Claim C1 counterexample: with a fractional maximum timestamp `45:00.5`
the code cutoff is `2100.5` seconds and the event at `35:00` is dropped,
while the claim formula (which ignores fractional parts) yields cutoff
`2100` and keeps it — so the claimed description of the kept rows is wrong
for this table. -/
theorem claim_C1_counterexample :
    (filter_last_n_minutes dfC1 10 (some 1)).rows ≠ claimKeptRows dfC1 10 (some 1) := by
  have h1 : (filter_last_n_minutes dfC1 10 (some 1)).rows =
      [{ period := some 1, timestamp := .time 0 45 0 (some 500) }] := by
    simp [filter_last_n_minutes, dfC1, timestampToSeconds, listMaxQ, listMaxI,
      List.filter_cons, List.filterMap_cons, List.dedup_cons_of_mem,
      List.dedup_cons_of_not_mem]
    norm_num
  have h2 : claimKeptRows dfC1 10 (some 1) =
      [{ period := some 1, timestamp := .time 0 45 0 (some 500) },
       { period := some 1, timestamp := .time 0 35 0 none }] := by
    simp [claimKeptRows, dfC1, claimElapsedSeconds, listMaxQ, listMaxI,
      List.filter_cons, List.filterMap_cons, List.dedup_cons_of_mem,
      List.dedup_cons_of_not_mem]
    norm_num
  rw [h1, h2]
  simp

/-- Claim C1 (amended): with `period`/`timestamp` columns present and a
non-empty reference period, `filter_last_n_minutes` keeps exactly the
events of the reference period (the given period, or the maximum period
present) whose elapsed seconds — `h*3600 + m*60 + s` *plus the fractional
part* `ms/1000`, malformed or missing timestamps mapping to `0` — reach
`max(observed max elapsed seconds in the reference period, 45*60) - n*60`. -/
theorem claim_C1 (df : DF) (n : ℚ) (p : Option Int)
    (h1 : df.cols.period = true) (h2 : df.cols.timestamp = true)
    (h3 : ((df.rows.filterMap Event.period).dedup) ≠ [])
    (h4 : df.rows.filter (fun e =>
      decide (e.period =
        some (p.getD (listMaxI (df.rows.filterMap Event.period).dedup)))) ≠ []) :
    (filter_last_n_minutes df n p).rows = df.rows.filter (fun e =>
      decide (e.period =
        some (p.getD (listMaxI (df.rows.filterMap Event.period).dedup))) &&
      decide (max (listMaxQ ((df.rows.filter (fun v =>
          decide (v.period =
            some (p.getD (listMaxI (df.rows.filterMap Event.period).dedup))))).map
            (fun v => timestampToSeconds v.timestamp))) (45 * 60) - n * 60 ≤
        timestampToSeconds e.timestamp)) := by
  have hp : ((df.rows.filterMap Event.period).dedup).isEmpty = false := by
    cases hh : (df.rows.filterMap Event.period).dedup
    · exact absurd hh h3
    · rfl
  have hpe : (df.rows.filter (fun e =>
      decide (e.period =
        some (p.getD (listMaxI (df.rows.filterMap Event.period).dedup))))).isEmpty
        = false := by
    cases hh : df.rows.filter (fun e =>
      decide (e.period = some (p.getD (listMaxI (df.rows.filterMap Event.period).dedup))))
    · exact absurd hh h4
    · rfl
  unfold filter_last_n_minutes
  simp only [h1, h2, hp, hpe, Bool.not_true, Bool.or_self, Bool.false_eq_true, if_false]

/-- Period-1 events at `40:00` (the period maximum), `35:00` and `34:59`. -/
def dfC1s : DF :=
  { cols := {},
    rows := [{ period := some 1, timestamp := .time 0 40 0 none },
             { period := some 1, timestamp := .time 0 35 0 none },
             { period := some 1, timestamp := .time 0 34 59 none }] }

/-- Claim C1 witness: the spec scenario — `n = 10`, maximum elapsed time 40
minutes, so the period length floors to 45 minutes and the cutoff is 35
minutes; the event at exactly `35:00` is kept and the one at `34:59` is
dropped. -/
theorem claim_C1_witness :
    (filter_last_n_minutes dfC1s 10 (some 1)).rows = dfC1s.rows.filter (fun e =>
      decide (e.period =
        some ((some 1 : Option Int).getD
          (listMaxI (dfC1s.rows.filterMap Event.period).dedup))) &&
      decide (max (listMaxQ ((dfC1s.rows.filter (fun v =>
          decide (v.period =
            some ((some 1 : Option Int).getD
              (listMaxI (dfC1s.rows.filterMap Event.period).dedup))))).map
            (fun v => timestampToSeconds v.timestamp))) (45 * 60) - 10 * 60 ≤
        timestampToSeconds e.timestamp)) ∧
    (filter_last_n_minutes dfC1s 10 (some 1)).rows =
      [{ period := some 1, timestamp := .time 0 40 0 none },
       { period := some 1, timestamp := .time 0 35 0 none }] := by
  constructor
  · exact claim_C1 dfC1s 10 (some 1) rfl rfl (by decide) (by decide)
  · simp [filter_last_n_minutes, dfC1s, timestampToSeconds, listMaxQ, listMaxI,
      List.filter_cons, List.filterMap_cons, List.dedup_cons_of_mem,
      List.dedup_cons_of_not_mem]
    norm_num


/-! ## Aggregator plumbing for claims C4, C7, C8, C10 -/

theorem bind_ok {α β : Type} (x : Except String α) (f : α → Except String β) (b : β)
    (h : x.bind f = .ok b) : ∃ a, x = .ok a ∧ f a = .ok b := by
  cases x with
  | error e => simp [Except.bind] at h
  | ok a => exact ⟨a, rfl, by simpa [Except.bind] using h⟩

theorem exists_ok {α : Type} (x : Except String α) (h : x.isOk = true) :
    ∃ a, x = .ok a := by
  cases x with
  | error e => simp [Except.isOk, Except.toBool] at h
  | ok a => exact ⟨a, rfl⟩

theorem compute_match_metrics_ok {df : DF} {lbl : String} {res : SegmentResult}
    (h : compute_match_metrics df lbl = .ok res) :
    ∃ possession pass_counts pass_success shot_counts shots_ot goals avg_pos final_third,
      possession_share_from_passes df = .ok possession ∧
      pass_counts_by_team df = .ok pass_counts ∧
      successful_pass_counts_by_team df = .ok pass_success ∧
      shot_counts_by_team df = .ok shot_counts ∧
      shots_on_target_by_team df = .ok shots_ot ∧
      goals_by_team df = .ok goals ∧
      average_position_by_team df = .ok avg_pos ∧
      final_third_entries_by_team df = .ok final_third ∧
      res = { segment := lbl,
              teams := (sortInts ((team_id_to_name_map df).map (fun p => p.1))).map
                (mkTeamRecord (team_id_to_name_map df) possession pass_counts
                  pass_success shot_counts shots_ot goals avg_pos final_third),
              total_passes := (pass_counts.map (fun p => p.2)).sum,
              total_shots := (shot_counts.map (fun p => p.2)).sum } := by
  unfold compute_match_metrics at h
  obtain ⟨v1, h1, h⟩ := bind_ok _ _ _ h
  obtain ⟨v2, h2, h⟩ := bind_ok _ _ _ h
  obtain ⟨v3, h3, h⟩ := bind_ok _ _ _ h
  obtain ⟨v4, h4, h⟩ := bind_ok _ _ _ h
  obtain ⟨v5, h5, h⟩ := bind_ok _ _ _ h
  obtain ⟨v6, h6, h⟩ := bind_ok _ _ _ h
  obtain ⟨v7, h7, h⟩ := bind_ok _ _ _ h
  obtain ⟨v8, h8, h⟩ := bind_ok _ _ _ h
  exact ⟨v1, v2, v3, v4, v5, v6, v7, v8, h1, h2, h3, h4, h5, h6, h7, h8,
    (Except.ok.inj h).symm⟩


/-! ## Claim C7: pass completion percentage -/

/-- Team 1 makes three passes, one of them successful (two have an
`Incomplete` outcome, one has no outcome). -/
def dfC7 : DF :=
  { cols := {},
    rows := [{ team_id := some 1, type_name := some "Pass",
               pass_outcome := some "Incomplete" },
             { team_id := some 1, type_name := some "Pass",
               pass_outcome := some "Incomplete" },
             { team_id := some 1, type_name := some "Pass" }] }

/-- Claim C7 counterexample: with 3 passes and 1 successful the stored
percentage is `round(100/3, 2) = 33.33`, which differs from the claimed
exact value `passes_successful/passes*100 = 100/3`. -/
theorem claim_C7_counterexample :
    (compute_match_metrics dfC7 "s").map (fun r => r.teams.map (fun t =>
      (t.passes, t.passes_successful, t.pass_completion_pct))) =
      .ok [(3, 1, some (3333 / 100))] ∧
    (3333 / 100 : ℚ) ≠ (1 : ℚ) / 3 * 100 := by
  constructor
  · simp [compute_match_metrics, dfC7, valueCounts, List.filter_cons, List.filterMap_cons,
      List.dedup_cons_of_mem, List.dedup_cons_of_not_mem, possession_share_from_passes,
      pass_counts_by_team, successful_pass_counts_by_team, shot_counts_by_team,
      shots_on_target_by_team, goals_by_team, average_position_by_team,
      final_third_entries_by_team, team_id_to_name_map, mkTeamRecord, sortInts,
      insertSorted, List.find?, Except.bind, Except.map, dlookup]
    norm_num [pyRoundTo, roundHalfEven]
  · norm_num

/-- Claim C7 (amended): in every team record produced by
`compute_match_metrics`, `pass_completion_pct` is `none` iff `passes = 0`;
when `passes ≠ 0` it equals `passes_successful/passes*100` *rounded to two
decimal places*. -/
theorem claim_C7 (df : DF) (lbl : String) (res : SegmentResult)
    (h : compute_match_metrics df lbl = .ok res) (rec : TeamMetrics)
    (hrec : rec ∈ res.teams) :
    (rec.pass_completion_pct = none ↔ rec.passes = 0) ∧
    (rec.passes ≠ 0 → rec.pass_completion_pct =
      some (pyRoundTo 2 ((rec.passes_successful : ℚ) / (rec.passes : ℚ) * 100))) := by
  obtain ⟨v1, v2, v3, v4, v5, v6, v7, v8, h1, h2, h3, h4, h5, h6, h7, h8, hres⟩ :=
    compute_match_metrics_ok h
  subst hres
  obtain ⟨tid, htid, rfl⟩ := List.mem_map.mp hrec
  by_cases hp : (dlookup v2 tid).getD 0 = 0 <;>
    simp [mkTeamRecord, hp]

/-- One successful pass by team 1. -/
def dfC7w : DF :=
  { cols := {}, rows := [{ team_id := some 1, type_name := some "Pass" }] }

/-- The team record `compute_match_metrics` produces for team 1 of `dfC7w`. -/
def recC7w : TeamMetrics :=
  { team_id := 1, team_name := "Team_1", possession_share := 1,
    passes := 1, passes_successful := 1, pass_completion_pct := some 100,
    shots := 0, shots_on_target := 0, goals := 0,
    avg_x := some 0, avg_y := some 0, final_third_entries := 0 }

/-- The segment result `compute_match_metrics` produces for `dfC7w`. -/
def resC7w : SegmentResult :=
  { segment := "s", teams := [recC7w], total_passes := 1, total_shots := 0 }

theorem resC7w_eval : compute_match_metrics dfC7w "s" = .ok resC7w := by
  simp [compute_match_metrics, dfC7w, resC7w, recC7w, valueCounts, List.filter_cons,
    List.filterMap_cons, List.dedup_cons_of_mem, List.dedup_cons_of_not_mem,
    possession_share_from_passes, pass_counts_by_team, successful_pass_counts_by_team,
    shot_counts_by_team, shots_on_target_by_team, goals_by_team,
    average_position_by_team, final_third_entries_by_team, team_id_to_name_map,
    mkTeamRecord, sortInts, insertSorted, List.find?, Except.bind, dlookup]
  norm_num [pyRoundTo, roundHalfEven]
  decide

/-- Claim C7 witness: the amended claim at the one-pass table. -/
theorem claim_C7_witness :
    (recC7w.pass_completion_pct = none ↔ recC7w.passes = 0) ∧
    (recC7w.passes ≠ 0 → recC7w.pass_completion_pct =
      some (pyRoundTo 2 ((recC7w.passes_successful : ℚ) / (recC7w.passes : ℚ) * 100))) :=
  claim_C7 dfC7w "s" resC7w resC7w_eval recC7w (by simp [resC7w])

/-! ## Claim C10: count consistency -/

theorem count_filter_le (l : List Event) (sel : Event → Bool) (t : Int) :
    ((l.filter sel).filter (fun e => decide (e.team_id = some t))).length ≤
      (l.filter (fun e => decide (e.team_id = some t))).length := by
  rw [List.filter_filter]
  exact length_filter_mono l _ _ (fun a ha => by
    simp only [Bool.and_eq_true] at ha; exact ha.1)

theorem succ_le_passes (df : DF) (v1 v2 : List (Int × Nat))
    (hv1 : pass_counts_by_team df = .ok v1)
    (hv2 : successful_pass_counts_by_team df = .ok v2) (t : Int) :
    (dlookup v2 t).getD 0 ≤ (dlookup v1 t).getD 0 := by
  unfold pass_counts_by_team at hv1
  unfold successful_pass_counts_by_team at hv2
  by_cases hg : (df.rows.isEmpty || !df.cols.team_id || !df.cols.type_name) = true
  · rw [if_pos hg] at hv1 hv2
    cases hv1; cases hv2; simp [dlookup]
  · have hg' := hg
    simp at hg'
    obtain ⟨⟨he, ht⟩, htn⟩ := hg'
    have hdt : ¬((!df.cols.type_name) = true) := by simp [htn]
    have hdi : ¬((!df.cols.team_id) = true) := by simp [ht]
    rw [if_neg hg, if_neg hdt, if_neg hdi] at hv1
    rw [if_neg hg, if_neg hdt] at hv2
    cases hv1
    by_cases hpe : (df.rows.filter (fun e =>
        decide (e.type_name = some "Pass"))).isEmpty = true
    · rw [if_pos hpe] at hv2; cases hv2; simp [dlookup]
    · rw [if_neg hpe, if_neg hdi] at hv2
      by_cases hpo : df.cols.pass_outcome = true
      · rw [if_pos hpo] at hv2
        cases hv2
        rw [getD_dlookup_valueCounts, getD_dlookup_valueCounts]
        exact count_filter_le _ _ _
      · rw [if_neg hpo] at hv2
        cases hv2
        exact le_refl _

theorem sot_le_shots (df : DF) (v1 v2 : List (Int × Nat))
    (hv1 : shot_counts_by_team df = .ok v1)
    (hv2 : shots_on_target_by_team df = .ok v2) (t : Int) :
    (dlookup v2 t).getD 0 ≤ (dlookup v1 t).getD 0 := by
  unfold shots_on_target_by_team at hv2
  by_cases hg : (df.rows.isEmpty || !df.cols.team_id || !df.cols.type_name) = true
  · unfold shot_counts_by_team at hv1
    rw [if_pos hg] at hv1 hv2
    cases hv1; cases hv2; simp [dlookup]
  · have hg' := hg
    simp at hg'
    obtain ⟨⟨he, ht⟩, htn⟩ := hg'
    have hdt : ¬((!df.cols.type_name) = true) := by simp [htn]
    have hdi : ¬((!df.cols.team_id) = true) := by simp [ht]
    rw [if_neg hg, if_neg hdt] at hv2
    by_cases hse : (df.rows.filter (fun e =>
        decide (e.type_name = some "Shot"))).isEmpty = true
    · rw [if_pos hse] at hv2; cases hv2; simp [dlookup]
    · rw [if_neg hse] at hv2
      by_cases hso : (!df.cols.shot_outcome) = true
      · rw [if_pos hso] at hv2
        rw [hv1] at hv2
        cases hv2
        exact le_refl _
      · rw [if_neg hso, if_neg hdi] at hv2
        cases hv2
        unfold shot_counts_by_team at hv1
        rw [if_neg hg, if_neg hdt, if_neg hdi] at hv1
        cases hv1
        rw [getD_dlookup_valueCounts, getD_dlookup_valueCounts]
        exact count_filter_le _ _ _

theorem goals_dict_getD (l : List Event) (t : Int) :
    (dlookup ((l.filterMap Event.team_id).dedup.map (fun k => ((some k : Option Int),
      (l.filter (fun e => decide (e.team_id = some k))).length))) (some t)).getD 0 =
      (l.filter (fun e => decide (e.team_id = some t))).length := by
  rw [dlookup_map_some]
  by_cases h : t ∈ (l.filterMap Event.team_id).dedup
  · simp [h]
  · simp only [h, if_false, Option.getD_none]
    symm
    rw [List.length_eq_zero, List.filter_eq_nil_iff]
    intro e he
    simp only [decide_eq_true_eq]
    intro hteam
    exact h (List.mem_dedup.mpr (List.mem_filterMap.mpr ⟨e, he, hteam⟩))

theorem const_zero_dict_getD (keys : List (Option Int)) (k : Option Int) :
    (dlookup (keys.map (fun t => (t, (0 : Nat)))) k).getD 0 = 0 := by
  rw [dlookup_map_keys (fun _ => (0 : Nat))]
  split <;> simp

theorem goals_le_sot (df : DF) (vg : List (Option Int × Nat)) (v2 : List (Int × Nat))
    (hvg : goals_by_team df = .ok vg)
    (hv2 : shots_on_target_by_team df = .ok v2) (t : Int) :
    (dlookup vg (some t)).getD 0 ≤ (dlookup v2 t).getD 0 := by
  unfold goals_by_team at hvg
  unfold shots_on_target_by_team at hv2
  by_cases hg : (df.rows.isEmpty || !df.cols.team_id || !df.cols.type_name) = true
  · rw [if_pos hg] at hvg
    cases hvg; simp [dlookup]
  · have hg' := hg
    simp at hg'
    obtain ⟨⟨he, ht⟩, htn⟩ := hg'
    have hdt : ¬((!df.cols.type_name) = true) := by simp [htn]
    have hdi : ¬((!df.cols.team_id) = true) := by simp [ht]
    rw [if_neg hg, if_neg hdt] at hvg hv2
    by_cases hc : ((df.rows.filter (fun e =>
        decide (e.type_name = some "Shot"))).isEmpty || !df.cols.shot_outcome) = true
    · rw [if_pos hc, if_neg hdi] at hvg
      cases hvg
      rw [const_zero_dict_getD]
      exact Nat.zero_le _
    · have hc' := hc
      simp at hc'
      obtain ⟨hse, hso⟩ := hc'
      have hse' : ¬((df.rows.filter (fun e =>
          decide (e.type_name = some "Shot"))).isEmpty = true) := by simp [hse]
      have hso' : ¬((!df.cols.shot_outcome) = true) := by simp [hso]
      rw [if_neg hc, if_neg hdi] at hvg
      cases hvg
      rw [if_neg hse', if_neg hso', if_neg hdi] at hv2
      cases hv2
      rw [goals_dict_getD, getD_dlookup_valueCounts]
      simp only [List.filter_filter]
      refine length_filter_mono _ _ _ (fun a ha => ?_)
      simp only [Bool.and_eq_true, decide_eq_true_eq] at ha ⊢
      simp_all [optIn]

/-- Claim C10: in every team record produced by `compute_match_metrics`,
`passes_successful ≤ passes` and `goals ≤ shots_on_target ≤ shots`,
including under the fallback paths where the `shot_outcome` or
`pass_outcome` column is absent. -/
theorem claim_C10 (df : DF) (lbl : String) (res : SegmentResult)
    (h : compute_match_metrics df lbl = .ok res) (rec : TeamMetrics)
    (hrec : rec ∈ res.teams) :
    rec.passes_successful ≤ rec.passes ∧ rec.goals ≤ rec.shots_on_target ∧
      rec.shots_on_target ≤ rec.shots := by
  obtain ⟨v1, v2, v3, v4, v5, v6, v7, v8, h1, h2, h3, h4, h5, h6, h7, h8, hres⟩ :=
    compute_match_metrics_ok h
  subst hres
  obtain ⟨tid, htid, rfl⟩ := List.mem_map.mp hrec
  refine ⟨?_, ?_, ?_⟩
  · simp only [mkTeamRecord]
    exact succ_le_passes df v2 v3 h2 h3 tid
  · simp only [mkTeamRecord]
    exact goals_le_sot df v6 v5 h6 h5 tid
  · simp only [mkTeamRecord]
    exact sot_le_shots df v4 v5 h4 h5 tid

/-- One successful pass and one goal-scoring shot by team 1. -/
def dfC10 : DF :=
  { cols := {},
    rows := [{ team_id := some 1, type_name := some "Pass" },
             { team_id := some 1, type_name := some "Shot",
               shot_outcome := some "Goal" }] }

/-- The team record `compute_match_metrics` produces for team 1 of `dfC10`. -/
def recC10 : TeamMetrics :=
  { team_id := 1, team_name := "Team_1", possession_share := 1,
    passes := 1, passes_successful := 1, pass_completion_pct := some 100,
    shots := 1, shots_on_target := 1, goals := 1,
    avg_x := some 0, avg_y := some 0, final_third_entries := 0 }

/-- The segment result `compute_match_metrics` produces for `dfC10`. -/
def resC10 : SegmentResult :=
  { segment := "s", teams := [recC10], total_passes := 1, total_shots := 1 }

theorem resC10_eval : compute_match_metrics dfC10 "s" = .ok resC10 := by
  simp [compute_match_metrics, dfC10, resC10, recC10, valueCounts, List.filter_cons,
    List.filterMap_cons, List.dedup_cons_of_mem, List.dedup_cons_of_not_mem,
    possession_share_from_passes, pass_counts_by_team, successful_pass_counts_by_team,
    shot_counts_by_team, shots_on_target_by_team, goals_by_team,
    average_position_by_team, final_third_entries_by_team, team_id_to_name_map,
    mkTeamRecord, sortInts, insertSorted, List.find?, Except.bind, dlookup, optIn]
  norm_num [pyRoundTo, roundHalfEven]
  decide

/-- Claim C10 witness: the count invariants at the concrete table. -/
theorem claim_C10_witness :
    recC10.passes_successful ≤ recC10.passes ∧ recC10.goals ≤ recC10.shots_on_target ∧
      recC10.shots_on_target ≤ recC10.shots :=
  claim_C10 dfC10 "s" resC10 resC10_eval recC10 (by simp [resC10])


/-! ## Claim C4: average position of a team without locations -/

theorem pyRoundTo_zero (nd : Nat) : pyRoundTo nd 0 = 0 := by
  norm_num [pyRoundTo, roundHalfEven]

/-- Team 1 has one Pass event with no location; the `x`/`y` columns exist. -/
def dfC4 : DF :=
  { cols := {}, rows := [{ team_id := some 1, type_name := some "Pass" }] }

/-- Claim C4 counterexample: every event of team 1 in `dfC4` lacks a
location, yet the produced record carries `avg_x = some 0` and
`avg_y = some 0` — a concrete number `0`, not the null/absent value the
claim requires. -/
theorem claim_C4_counterexample :
    dfC4.rows.filter (fun e => e.x.isSome && e.y.isSome) = [] ∧
    (compute_match_metrics dfC4 "s").map (fun r => r.teams.map (fun t =>
      (t.avg_x, t.avg_y))) = .ok [(some 0, some 0)] := by
  constructor
  · rfl
  · simp [compute_match_metrics, dfC4, valueCounts, List.filter_cons, List.filterMap_cons,
      List.dedup_cons_of_mem, List.dedup_cons_of_not_mem, possession_share_from_passes,
      pass_counts_by_team, successful_pass_counts_by_team, shot_counts_by_team,
      shots_on_target_by_team, goals_by_team, average_position_by_team,
      final_third_entries_by_team, team_id_to_name_map, mkTeamRecord, sortInts,
      insertSorted, List.find?, Except.bind, Except.map, dlookup]
    norm_num [pyRoundTo, roundHalfEven]

/-- Claim C4 (amended): for a team none of whose events has a complete
`(x, y)` location, the produced record has `avg_x = some 0` and
`avg_y = some 0` — the aggregator defaults the missing average position to
the number `0` rather than leaving it null. -/
theorem claim_C4 (df : DF) (lbl : String) (res : SegmentResult) (tid : Int)
    (h : compute_match_metrics df lbl = .ok res) (rec : TeamMetrics)
    (hrec : rec ∈ res.teams) (hteam : rec.team_id = tid)
    (hnoloc : ∀ e ∈ df.rows, e.team_id = some tid →
      ¬(e.x.isSome = true ∧ e.y.isSome = true)) :
    rec.avg_x = some 0 ∧ rec.avg_y = some 0 := by
  obtain ⟨v1, v2, v3, v4, v5, v6, v7, v8, h1, h2, h3, h4, h5, h6, h7, h8, hres⟩ :=
    compute_match_metrics_ok h
  subst hres
  obtain ⟨tid', htid', rfl⟩ := List.mem_map.mp hrec
  have htideq : tid' = tid := hteam
  subst htideq
  have hnotmem : tid' ∉ ((df.rows.filter (fun e =>
      e.x.isSome && e.y.isSome)).filterMap Event.team_id).dedup := by
    intro hin
    obtain ⟨e, hev, hteam'⟩ := List.mem_filterMap.mp (List.mem_dedup.mp hin)
    obtain ⟨herows, hxy⟩ := List.mem_filter.mp hev
    simp only [Bool.and_eq_true] at hxy
    exact hnoloc e herows hteam' hxy
  have hlook : dlookup v7 tid' = none := by
    unfold average_position_by_team at h7
    by_cases hg : (df.rows.isEmpty || !df.cols.team_id) = true
    · rw [if_pos hg] at h7; cases h7; rfl
    · have hdx : ¬((!df.cols.x) = true) := by
        intro hc
        rw [if_neg hg, if_pos hc] at h7
        cases h7
      by_cases hy : (!df.cols.y) = true
      · rw [if_neg hg, if_neg hdx, if_pos hy] at h7
        cases h7
      · rw [if_neg hg, if_neg hdx, if_neg hy] at h7
        by_cases hv : (df.rows.filter (fun e =>
            e.x.isSome && e.y.isSome)).isEmpty = true
        · rw [if_pos hv] at h7; cases h7; rfl
        · rw [if_neg hv] at h7
          cases h7
          rw [dlookup_map_keys]
          exact if_neg hnotmem
  simp [mkTeamRecord, hlook, pyRoundTo_zero]

/-- The team record `compute_match_metrics` produces for team 1 of `dfC4`. -/
def recC4 : TeamMetrics :=
  { team_id := 1, team_name := "Team_1", possession_share := 1,
    passes := 1, passes_successful := 1, pass_completion_pct := some 100,
    shots := 0, shots_on_target := 0, goals := 0,
    avg_x := some 0, avg_y := some 0, final_third_entries := 0 }

/-- The segment result `compute_match_metrics` produces for `dfC4`. -/
def resC4 : SegmentResult :=
  { segment := "s", teams := [recC4], total_passes := 1, total_shots := 0 }

theorem resC4_eval : compute_match_metrics dfC4 "s" = .ok resC4 := by
  simp [compute_match_metrics, dfC4, resC4, recC4, valueCounts, List.filter_cons,
    List.filterMap_cons, List.dedup_cons_of_mem, List.dedup_cons_of_not_mem,
    possession_share_from_passes, pass_counts_by_team, successful_pass_counts_by_team,
    shot_counts_by_team, shots_on_target_by_team, goals_by_team,
    average_position_by_team, final_third_entries_by_team, team_id_to_name_map,
    mkTeamRecord, sortInts, insertSorted, List.find?, Except.bind, dlookup]
  norm_num [pyRoundTo, roundHalfEven]
  decide

/-- Claim C4 witness: the amended claim at the concrete no-location table. -/
theorem claim_C4_witness : recC4.avg_x = some 0 ∧ recC4.avg_y = some 0 :=
  claim_C4 dfC4 "s" resC4 1 resC4_eval recC4 (by simp [resC4]) rfl (by decide)

/-! ## Claim C8: aggregator failure semantics -/

/-- A non-empty table with `team_id` but no `type_name`/`x`/`y` columns. -/
def dfC8 : DF :=
  { cols := { type_name := false, x := false, y := false, end_x := false },
    rows := [{ team_id := some 1 }] }

/-- Claim C8 counterexample: the claim says `compute_match_metrics` never
raises, but on a non-empty table with a `team_id` column and no `x` column
the average-position step raises `KeyError` and the whole aggregation
fails. -/
theorem claim_C8_counterexample :
    (compute_match_metrics dfC8 "full_match").isOk = false := by rfl

/-- Claim C8 (amended): `compute_match_metrics` succeeds exactly when the
table is empty, lacks `team_id`, or has both `x` and `y` (the only raising
step being the average-position lookup); and on an empty event table it
returns the segment with an empty team list and zero totals. -/
theorem claim_C8 (df : DF) (lbl : String) :
    ((compute_match_metrics df lbl).isOk = true ↔
      (df.rows.isEmpty || !df.cols.team_id || (df.cols.x && df.cols.y)) = true) ∧
    (df.rows.isEmpty = true → compute_match_metrics df lbl =
      .ok { segment := lbl, teams := [], total_passes := 0, total_shots := 0 }) := by
  constructor
  · obtain ⟨w1, hw1⟩ := exists_ok _ (possession_share_isOk df)
    obtain ⟨w2, hw2⟩ := exists_ok _ (pass_counts_isOk df)
    obtain ⟨w3, hw3⟩ := exists_ok _ (successful_pass_isOk df)
    obtain ⟨w4, hw4⟩ := exists_ok _ (shot_counts_isOk df)
    obtain ⟨w5, hw5⟩ := exists_ok _ (shots_on_target_isOk df)
    obtain ⟨w6, hw6⟩ := exists_ok _ (goals_isOk df)
    obtain ⟨w8, hw8⟩ := exists_ok _ (final_third_isOk df)
    have hiff := average_position_isOk_iff df
    unfold compute_match_metrics
    rw [hw1, hw2, hw3, hw4, hw5, hw6]
    cases havg : average_position_by_team df with
    | error e =>
        rw [havg] at hiff
        simp only [Except.isOk, Except.toBool, Bool.false_eq_true, false_iff] at hiff
        simp [Except.bind, Except.isOk, Except.toBool, hiff]
    | ok ap =>
        rw [havg] at hiff
        simp only [Except.isOk, Except.toBool, true_iff] at hiff
        simp [Except.bind, hw8, Except.isOk, Except.toBool, hiff]
  · intro he
    have hrows : df.rows = [] := List.isEmpty_iff.mp he
    have e1 : possession_share_from_passes df = .ok [] := by
      simp [possession_share_from_passes, hrows]
    have e2 : pass_counts_by_team df = .ok [] := by
      simp [pass_counts_by_team, hrows]
    have e3 : successful_pass_counts_by_team df = .ok [] := by
      simp [successful_pass_counts_by_team, hrows]
    have e4 : shot_counts_by_team df = .ok [] := by
      simp [shot_counts_by_team, hrows]
    have e5 : shots_on_target_by_team df = .ok [] := by
      simp [shots_on_target_by_team, hrows]
    have e6 : goals_by_team df = .ok [] := by
      simp [goals_by_team, hrows]
    have e7 : average_position_by_team df = .ok [] := by
      simp [average_position_by_team, hrows]
    have e8 : final_third_entries_by_team df = .ok [] := by
      simp [final_third_entries_by_team, hrows]
    have e9 : team_id_to_name_map df = [] := by
      simp [team_id_to_name_map, hrows]
    simp [compute_match_metrics, e1, e2, e3, e4, e5, e6, e7, e8, e9,
      Except.bind, sortInts]

/-- The empty event table. -/
def dfC8e : DF := { cols := {}, rows := [] }

/-- Claim C8 witness: the empty table yields the empty segment result with
zero totals. -/
theorem claim_C8_witness :
    compute_match_metrics dfC8e "seg" =
      .ok { segment := "seg", teams := [], total_passes := 0, total_shots := 0 } :=
  (claim_C8 dfC8e "seg").2 rfl


end Grinta
